import Mathlib

/-!
Verification of the crawl-lifecycle orchestration layer of `scrapy/crawler.py`
(classes `Crawler`, `CrawlerRunner`, `CrawlerProcess`).

The code is single-threaded cooperative (Twisted reactor); asynchronous
operations return Deferreds.  We embed it shallowly:

* a Deferred is identified by an abstract token whose resolution status at the
  moment of interest is recorded by an environment `Env : Nat → DStatus`;
* the Twisted `defer.DeferredList` join (external collaborator, modelled after
  its documented counter semantics: the aggregate fires once every component
  has fired, collecting per-component success/failure) is `DeferredList.called`;
* mutable Python objects whose aliasing matters (the `Settings` object handed
  to `CrawlerRunner.__init__`) live in an explicit heap addressed by `Nat`
  references; objects that are copied (`Settings.frozencopy`) become plain
  values;
* fatal `assert` statements become `Except` errors / dedicated result
  constructors;
* the global `scrapy.project.crawler` slot is an explicit `Option Nat`
  (crawler identity) threaded through the operations.
-/

namespace Scrapy

/-- Resolution status of a Deferred at some instant: not yet fired, fired with
a result (callback), or fired with a Failure (errback). -/
inductive DStatus
  | pending
  | success
  | failure
deriving DecidableEq

/-- Environment recording, for each abstract Deferred/engine-event token, its
resolution status at the instant under consideration. -/
abbrev Env := Nat → DStatus

/-- Swap the success/failure outcome of every fired event, keeping pending
events pending.  Used to state that join completion ignores outcomes. -/
def flipOutcomes (env : Env) : Env := fun e =>
  match env e with
  | DStatus.pending => DStatus.pending
  | DStatus.success => DStatus.failure
  | DStatus.failure => DStatus.success

namespace DeferredList

/-- Number of component deferreds that have already fired (Twisted keeps this
as a countdown `finishedCount`; we count up, which is equivalent). -/
def finishedCount {α : Type} (fired : α → Bool) (ds : List α) : Nat :=
  (ds.filter fired).length

/-- Twisted `defer.DeferredList` aggregate firing condition: the aggregate
deferred has fired exactly when the finished counter has reached the number
of components (immediately so for the empty list). -/
def called {α : Type} (fired : α → Bool) (ds : List α) : Bool :=
  finishedCount fired ds == ds.length

end DeferredList

/-- Configuration object.  `vals` abstracts the key-value content,
`dnscacheEnabled` is the one boolean key this layer reads
(`DNSCACHE_ENABLED`), `frozen` is the immutability flag set by
`frozencopy`. -/
structure Settings where
  vals : Nat
  dnscacheEnabled : Bool
  frozen : Bool
deriving DecidableEq

/-- `Settings.frozencopy`: an independent copy of the content with the frozen
flag set. -/
def Settings.frozencopy (s : Settings) : Settings := { s with frozen := true }

/-- A raised Python exception (AssertionError, RuntimeError, ...), identified
by its message. -/
structure PyError where
  msg : String
deriving DecidableEq

/-- Mutating a settings object: fails on a frozen copy, succeeds on a live
object. -/
def Settings.setval (s : Settings) (v : Nat) : Except PyError Settings :=
  if s.frozen then Except.error ⟨"settings object is immutable"⟩
  else Except.ok { s with vals := v }

/-- Heap of mutable `Settings` objects, addressed by reference. -/
abbrev Heap := Nat → Settings

/-- Overwrite the settings object stored at reference `i`. -/
def writeHeap (h : Heap) (i : Nat) (v : Settings) : Heap :=
  fun j => if j = i then v else h j

/-- State of one `Crawler` (a CrawlTask).  `id` models Python object identity
(set membership in `CrawlerRunner.crawlers` is by identity).  `spidercls` is
the resolved spider type, abstracted to a token.  `__init__` sets
`crawling := False`, `spider := None`, `engine := None`. -/
structure Crawler where
  id : Nat
  spidercls : Nat
  settings : Settings
  crawling : Bool
  spider : Option Nat
  engine : Option Nat
deriving DecidableEq

/-- The completion handle returned by `Crawler.stop` (an `inlineCallbacks`
deferred). -/
inductive StopHandle
  | immediate
  /-- The generator yielded `maybeDeferred(engine.stop)`: the handle fires
  when the engine-stop event fires. -/
  | awaitEngine (e : Nat)
  /-- `self.engine` was `None`: attribute access raised before any yield, so
  the handle fires immediately with a Failure. -/
  | immediateError
deriving DecidableEq

/-- `Crawler.stop`: no-op returning an already-fired deferred when not
crawling; otherwise clears `crawling` and awaits `engine.stop`. -/
def Crawler.stop (c : Crawler) : Crawler × StopHandle :=
  if c.crawling then
    ({ c with crawling := false },
      match c.engine with
      | some e => StopHandle.awaitEngine e
      | none => StopHandle.immediateError)
  else (c, StopHandle.immediate)

/-- Whether a stop handle has fired under the event environment `env`. -/
def StopHandle.firedIn (env : Env) : StopHandle → Bool
  | StopHandle.immediate => true
  | StopHandle.immediateError => true
  | StopHandle.awaitEngine e => env e != DStatus.pending

/-- The five steps of the `Crawler.crawl` start sequence, in program order:
`self._create_spider(...)`, `self._create_engine()`,
`iter(self.spider.start_requests())`, `yield self.engine.open_spider(...)`,
`yield defer.maybeDeferred(self.engine.start)`. -/
inductive CrawlStep
  | createSpider
  | createEngine
  | startRequests
  | openSpider
  | engineStart
deriving DecidableEq

/-- Oracle for one run of the start sequence: which step (if any) fails, and
the identities the spider/engine factories and the engine-run completion event
would take. -/
structure CrawlEnv where
  failAt : Option CrawlStep
  spiderId : Nat
  engineId : Nat
  engineRun : Nat
deriving DecidableEq

/-- Eventual outcome of `Crawler.crawl` together with the final crawler
state. -/
inductive CrawlResult
  /-- `assert not self.crawling` fired: the AssertionError propagates to the
  awaiter of the returned deferred; the crawler state is untouched. -/
  | assertionError (c : Crawler)
  /-- Some step of the sequence failed: `except` reset `crawling` and
  re-raised, so the handle fires with the error of that step. -/
  | failed (c : Crawler) (step : CrawlStep)
  /-- The whole sequence succeeded: the handle fires when the engine-run
  event fires. -/
  | started (c : Crawler) (runEvent : Nat)
deriving DecidableEq

/-- `Crawler.crawl`: fatal assertion if already crawling, otherwise runs the
five-step start sequence, assigning `spider` and `engine` as the source does
and rolling `crawling` back to `False` on any failure. -/
def Crawler.crawl (env : CrawlEnv) (c : Crawler) : CrawlResult :=
  if c.crawling then CrawlResult.assertionError c
  else
    let c1 := { c with crawling := true }
    match env.failAt with
    | some CrawlStep.createSpider =>
        CrawlResult.failed { c1 with crawling := false } CrawlStep.createSpider
    | some CrawlStep.createEngine =>
        CrawlResult.failed
          { c1 with spider := some env.spiderId, crawling := false }
          CrawlStep.createEngine
    | some CrawlStep.startRequests =>
        CrawlResult.failed
          { c1 with spider := some env.spiderId, engine := some env.engineId,
                    crawling := false }
          CrawlStep.startRequests
    | some CrawlStep.openSpider =>
        CrawlResult.failed
          { c1 with spider := some env.spiderId, engine := some env.engineId,
                    crawling := false }
          CrawlStep.openSpider
    | some CrawlStep.engineStart =>
        CrawlResult.failed
          { c1 with spider := some env.spiderId, engine := some env.engineId,
                    crawling := false }
          CrawlStep.engineStart
    | none =>
        CrawlResult.started
          { c1 with spider := some env.spiderId, engine := some env.engineId }
          env.engineRun

/-- The crawler state carried by a crawl outcome. -/
def CrawlResult.crawler : CrawlResult → Crawler
  | CrawlResult.assertionError c => c
  | CrawlResult.failed c _ => c
  | CrawlResult.started c _ => c

/-- The process-wide `scrapy.project.crawler` slot: the identity of the
installed crawler, if any. -/
abbrev Installed := Option Nat

/-- `Crawler.install`: fatal assertion if a crawler is already installed,
otherwise occupies the slot. -/
def Crawler.install (c : Crawler) (g : Installed) : Except PyError Installed :=
  match g with
  | some _ => Except.error ⟨"crawler already installed"⟩
  | none => Except.ok (some c.id)

/-- `Crawler.uninstall`: fatal assertion if no crawler is installed,
otherwise clears the slot. -/
def Crawler.uninstall (g : Installed) : Except PyError Installed :=
  match g with
  | none => Except.error ⟨"crawler not installed"⟩
  | some _ => Except.ok none

/-- State of a `CrawlerRunner` (the TaskRegistry).  `__init__` stores the
passed settings object itself (`self.settings = settings`), so the runner
holds a heap reference; only the spider manager is built from
`settings.frozencopy()`.  `crawlers` and `crawl_deferreds` are the two
tracked sets (modelled as lists; Python-set membership is object identity,
i.e. `Crawler.id` resp. the deferred token).  `nextId` is an allocation
counter for fresh object identities. -/
structure CrawlerRunner where
  settingsRef : Nat
  spidersSettings : Settings
  crawlers : List Crawler
  crawl_deferreds : List Nat
  nextId : Nat
deriving DecidableEq

/-- `CrawlerRunner.__init__(settings)`: keeps the live settings reference and
gives the spider manager a frozen copy of the settings as they are now. -/
def CrawlerRunner.init (heap : Heap) (settingsRef : Nat) : CrawlerRunner :=
  { settingsRef := settingsRef
  , spidersSettings := (heap settingsRef).frozencopy
  , crawlers := []
  , crawl_deferreds := []
  , nextId := 0 }

/-- `CrawlerRunner._create_crawler`: builds a fresh `Crawler` bound to
`self.settings.frozencopy()`, a frozen copy of the settings object the runner
references at this moment. -/
def CrawlerRunner._create_crawler (heap : Heap) (r : CrawlerRunner)
    (spidercls : Nat) : Crawler :=
  { id := r.nextId
  , spidercls := spidercls
  , settings := (heap r.settingsRef).frozencopy
  , crawling := false
  , spider := none
  , engine := none }

/-- `CrawlerRunner.crawl`: creates a crawler, adds it to `self.crawlers`,
calls `crawler.install()` (whose AssertionError propagates synchronously,
leaving the crawler in the set), then starts the crawl and adds the returned
deferred (a fresh token `r.nextId + 1`) to `self.crawl_deferreds`.  Returns
the updated runner, the updated installed slot, and the deferred token or the
propagated error. -/
def CrawlerRunner.crawl (heap : Heap) (env : CrawlEnv) (g : Installed)
    (r : CrawlerRunner) (spidercls : Nat) :
    CrawlerRunner × Installed × Except PyError Nat :=
  let crawler := CrawlerRunner._create_crawler heap r spidercls
  match Crawler.install crawler g with
  | Except.error e =>
      ({ r with crawlers := r.crawlers ++ [crawler], nextId := r.nextId + 2 },
        g, Except.error e)
  | Except.ok g1 =>
      let res := Crawler.crawl env crawler
      let d := r.nextId + 1
      ({ r with crawlers := r.crawlers ++ [res.crawler]
              , crawl_deferreds := r.crawl_deferreds ++ [d]
              , nextId := r.nextId + 2 },
        g1, Except.ok d)

/-- `CrawlerRunner.stop`: `defer.DeferredList(c.stop() for c in
self.crawlers)` — invokes `stop()` on every tracked crawler and wraps the
resulting handles in a DeferredList join.  Returns the runner with the
updated crawler states and the list of component stop handles. -/
def CrawlerRunner.stop (r : CrawlerRunner) : CrawlerRunner × List StopHandle :=
  ({ r with crawlers := r.crawlers.map (fun c => (Crawler.stop c).1) },
    r.crawlers.map (fun c => (Crawler.stop c).2))

/-- Reactor (cooperative loop) lifecycle state. -/
inductive ReactorState
  | running
  | stopped
  | shuttingDown
deriving DecidableEq

/-- Twisted `reactor.stop` (external collaborator): halts a running reactor,
raises `RuntimeError` if the reactor is already stopped or mid-shutdown. -/
def reactor_stop : ReactorState → Except PyError ReactorState
  | ReactorState.running => Except.ok ReactorState.stopped
  | ReactorState.stopped => Except.error ⟨"reactor is not running"⟩
  | ReactorState.shuttingDown => Except.error ⟨"reactor is not running"⟩

/-- `CrawlerProcess._stop_reactor`: `reactor.stop()` inside
`try: ... except RuntimeError: pass` — the already-stopped / mid-shutdown
error is swallowed and the state left as it was. -/
def CrawlerProcess._stop_reactor (s : ReactorState) : ReactorState :=
  match reactor_stop s with
  | Except.ok s1 => s1
  | Except.error _ => s

/-- Which handler `install_shutdown_handlers` currently has installed for the
termination signals. -/
inductive SigHandler
  | shutdown
  | kill
  | ignore
deriving DecidableEq

/-- A call handed to the loop thread through `reactor.callFromThread`. -/
inductive Scheduled
  /-- `self.stop` — the registry-wide graceful stop. -/
  | runnerStopAll
  /-- `self._stop_reactor` — the unconditional loop stop. -/
  | reactorHalt
deriving DecidableEq

/-- State of a `CrawlerProcess` (the ShutdownDriver): the inherited registry
state, the unused re-entrancy guard `stopping` set by `__init__`, the handler
currently installed for termination signals, the log, and the queue of calls
scheduled onto the loop thread via `reactor.callFromThread`. -/
structure CrawlerProcess where
  runner : CrawlerRunner
  stopping : Bool
  handler : SigHandler
  logMessages : List String
  callQueue : List Scheduled
deriving DecidableEq

/-- Modelled from the spec: `signal_names` lives in
`scrapy/utils/ossignal.py`, which is not part of the excerpt; the spec only
requires that the log notice names the received signal, so we give the two
POSIX termination signals their names and a generic rendering otherwise. -/
def signal_names (signum : Nat) : String :=
  if signum = 2 then "SIGINT"
  else if signum = 15 then "SIGTERM"
  else "SIG" ++ toString signum

/-- The rendered graceful-shutdown log notice of `_signal_shutdown`. -/
def gracefulMsg (signum : Nat) : String :=
  "Received " ++ signal_names signum ++
    ", shutting down gracefully. Send again to force "

/-- The rendered forced-shutdown log notice of `_signal_kill`. -/
def forcedMsg (signum : Nat) : String :=
  "Received " ++ signal_names signum ++ " twice, forcing unclean shutdown"

/-- `CrawlerProcess._signal_shutdown`: installs `_signal_kill` as the handler
for subsequent termination signals (via `install_shutdown_handlers`, modelled
from the spec as swapping the installed handler), logs the graceful notice,
and schedules `self.stop` on the loop thread with
`reactor.callFromThread`.  The registry state is not touched. -/
def CrawlerProcess._signal_shutdown (signum : Nat) (p : CrawlerProcess) :
    CrawlerProcess :=
  { p with handler := SigHandler.kill
         , logMessages := p.logMessages ++ [gracefulMsg signum]
         , callQueue := p.callQueue ++ [Scheduled.runnerStopAll] }

/-- `CrawlerProcess._signal_kill`: installs `signal.SIG_IGN` for further
termination signals, logs the forced notice, and schedules
`self._stop_reactor` on the loop thread with `reactor.callFromThread`. -/
def CrawlerProcess._signal_kill (signum : Nat) (p : CrawlerProcess) :
    CrawlerProcess :=
  { p with handler := SigHandler.ignore
         , logMessages := p.logMessages ++ [forcedMsg signum]
         , callQueue := p.callQueue ++ [Scheduled.reactorHalt] }

/-- What `_start_reactor` set up before blocking in `reactor.run`. -/
structure RanInfo where
  /-- When `stop_after_crawl` held, the snapshot of `self.crawl_deferreds`
  whose DeferredList completion triggers `self._stop_reactor`. -/
  stopTrigger : Option (List Nat)
  /-- Whether `CachingThreadedResolver` was installed (`DNSCACHE_ENABLED`). -/
  dnsResolverInstalled : Bool
  /-- The before-shutdown system event trigger calling `self.stop`. -/
  shutdownTriggerInstalled : Bool
deriving DecidableEq

/-- Outcome of `CrawlerProcess._start_reactor`. -/
inductive ReactorOutcome
  /-- Returned before `reactor.run`: the DeferredList over the pending crawl
  deferreds had already fired. -/
  | immediateReturn
  /-- Entered the blocking `reactor.run` call with the given setup. -/
  | ran (info : RanInfo)
deriving DecidableEq

/-- `CrawlerProcess._start_reactor`: when `stop_after_crawl`, builds
`defer.DeferredList(self.crawl_deferreds)` over the deferreds tracked at this
moment; if it has already fired, returns without running the reactor,
otherwise adds `self._stop_reactor` as its both-callback.  Then optionally
installs the caching resolver, registers the before-shutdown `self.stop`
trigger, and blocks in `reactor.run`.  The method reads but never mutates the
runner state, which is returned unchanged alongside the outcome. -/
def CrawlerProcess._start_reactor (heap : Heap) (env : Env)
    (stop_after_crawl : Bool) (p : CrawlerProcess) :
    CrawlerProcess × ReactorOutcome :=
  if stop_after_crawl then
    if DeferredList.called (fun d => env d != DStatus.pending)
        p.runner.crawl_deferreds then
      (p, ReactorOutcome.immediateReturn)
    else
      (p, ReactorOutcome.ran
        { stopTrigger := some p.runner.crawl_deferreds
        , dnsResolverInstalled := (heap p.runner.settingsRef).dnscacheEnabled
        , shutdownTriggerInstalled := true })
  else
    (p, ReactorOutcome.ran
      { stopTrigger := none
      , dnsResolverInstalled := (heap p.runner.settingsRef).dnscacheEnabled
      , shutdownTriggerInstalled := true })

/-! Helper lemmas and sample states used by the claim theorems. -/

/-- The DeferredList counter condition is equivalent to every component having
fired. -/
theorem DeferredList.called_eq_all {α : Type} (fired : α → Bool) (ds : List α) :
    DeferredList.called fired ds = ds.all fired := by
  induction ds with
  | nil => rfl
  | cons a t ih =>
    cases h : fired a with
    | true =>
      have h1 : DeferredList.called fired (a :: t)
          = DeferredList.called fired t := by
        simp [DeferredList.called, DeferredList.finishedCount,
          List.filter_cons, h]
      rw [h1, ih, List.all_cons, h, Bool.true_and]
    | false =>
      have hle := List.length_filter_le fired t
      have hne : (t.filter fired).length ≠ t.length + 1 := by omega
      simp [DeferredList.called, DeferredList.finishedCount,
        List.filter_cons, h, List.all_cons, hne]

/-- Swapping success and failure outcomes does not change whether a stop
handle has fired. -/
theorem StopHandle.firedIn_flip (env : Env) (h : StopHandle) :
    StopHandle.firedIn (flipOutcomes env) h = StopHandle.firedIn env h := by
  cases h with
  | immediate => rfl
  | immediateError => rfl
  | awaitEngine e =>
    simp only [StopHandle.firedIn, flipOutcomes]
    cases env e <;> rfl

/-- `Crawler.stop` preserves object identity. -/
theorem Crawler.stop_id (c : Crawler) : (Crawler.stop c).1.id = c.id := by
  unfold Crawler.stop
  by_cases h : c.crawling <;> simp [h]

/-- A live (unfrozen) sample settings object. -/
def sampleSettings : Settings := { vals := 1, dnscacheEnabled := false, frozen := false }

/-- A heap whose every reference holds `sampleSettings`. -/
def sampleHeap : Heap := fun _ => sampleSettings

/-- The heap after mutating the settings object at reference 0. -/
def mutHeap : Heap :=
  writeHeap sampleHeap 0 { vals := 2, dnscacheEnabled := true, frozen := false }

/-- Event environment in which nothing has fired yet. -/
def envAllPending : Env := fun _ => DStatus.pending

/-- A freshly constructed runner referencing the settings at 0. -/
def sampleRunner0 : CrawlerRunner := CrawlerRunner.init sampleHeap 0

/-- A freshly constructed process around `sampleRunner0`. -/
def sampleProcess0 : CrawlerProcess :=
  { runner := sampleRunner0
  , stopping := false
  , handler := SigHandler.shutdown
  , logMessages := []
  , callQueue := [] }

/-- The runner with one tracked crawl deferred (token 7). -/
def sampleRunner1 : CrawlerRunner := { sampleRunner0 with crawl_deferreds := [7] }

/-- The process around `sampleRunner1`. -/
def sampleProcess1 : CrawlerProcess := { sampleProcess0 with runner := sampleRunner1 }

/-- A crawler mid-crawl: `crawling = true`, spider and engine constructed. -/
def sampleCrawlerRunning : Crawler :=
  { id := 0
  , spidercls := 3
  , settings := sampleSettings.frozencopy
  , crawling := true
  , spider := some 1
  , engine := some 2 }

/-- An idle crawler as produced by `Crawler.__init__`. -/
def sampleCrawlerIdle : Crawler :=
  { id := 1
  , spidercls := 3
  , settings := sampleSettings.frozencopy
  , crawling := false
  , spider := none
  , engine := none }

/-- A start-sequence oracle in which no step fails. -/
def sampleCrawlEnv : CrawlEnv :=
  { failAt := none, spiderId := 1, engineId := 2, engineRun := 9 }

/-- A start-sequence oracle in which opening the spider on the engine fails. -/
def sampleFailEnv : CrawlEnv :=
  { failAt := some CrawlStep.openSpider, spiderId := 1, engineId := 2, engineRun := 9 }

/-! The claim theorems. -/

/-- Claim C1: two-stage signal escalation.  The first-stage handler
`_signal_shutdown` installs the second-stage handler, appends a
graceful-shutdown notice naming the received signal to the log, and appends
the registry-wide stop to the `callFromThread` queue, leaving the registry
state untouched; the second-stage handler `_signal_kill` installs the
ignore-handler, logs a forced-shutdown notice naming the signal, and appends
the unconditional loop stop to the `callFromThread` queue, again never
touching the registry directly. -/
theorem claim_C1_two_stage_signal_escalation (signum : Nat) (p : CrawlerProcess) :
    ((CrawlerProcess._signal_shutdown signum p).handler = SigHandler.kill
      ∧ (CrawlerProcess._signal_shutdown signum p).logMessages
          = p.logMessages ++ [gracefulMsg signum]
      ∧ (∃ pre post, gracefulMsg signum = pre ++ signal_names signum ++ post)
      ∧ (CrawlerProcess._signal_shutdown signum p).callQueue
          = p.callQueue ++ [Scheduled.runnerStopAll]
      ∧ (CrawlerProcess._signal_shutdown signum p).runner = p.runner)
    ∧ ((CrawlerProcess._signal_kill signum p).handler = SigHandler.ignore
      ∧ (CrawlerProcess._signal_kill signum p).logMessages
          = p.logMessages ++ [forcedMsg signum]
      ∧ (∃ pre post, forcedMsg signum = pre ++ signal_names signum ++ post)
      ∧ (CrawlerProcess._signal_kill signum p).callQueue
          = p.callQueue ++ [Scheduled.reactorHalt]
      ∧ (CrawlerProcess._signal_kill signum p).runner = p.runner) :=
  ⟨⟨rfl, rfl,
      ⟨"Received ", ", shutting down gracefully. Send again to force ", rfl⟩,
      rfl, rfl⟩,
    ⟨rfl, rfl,
      ⟨"Received ", " twice, forcing unclean shutdown", rfl⟩,
      rfl, rfl⟩⟩

/-- Claim C2: `CrawlerRunner.stop` invokes `stop()` on every tracked crawler,
and the returned DeferredList join fires exactly when all the component stop
handles have fired — independently of the success/failure outcome of each
(swapping every outcome leaves the join firing condition unchanged), and with
no dependence on any completion order, since firing is a pure predicate of
the event environment. -/
theorem claim_C2_stopAll_join_semantics (r : CrawlerRunner) (env : Env) :
    (CrawlerRunner.stop r).2 = r.crawlers.map (fun c => (Crawler.stop c).2)
    ∧ DeferredList.called (StopHandle.firedIn env) (CrawlerRunner.stop r).2
        = ((CrawlerRunner.stop r).2).all (StopHandle.firedIn env)
    ∧ DeferredList.called (StopHandle.firedIn (flipOutcomes env))
          (CrawlerRunner.stop r).2
        = DeferredList.called (StopHandle.firedIn env) (CrawlerRunner.stop r).2 := by
  refine ⟨rfl, DeferredList.called_eq_all _ _, ?_⟩
  rw [funext (StopHandle.firedIn_flip env)]

/-- Claim C9: `_stop_reactor` is safe to call repeatedly: after any call the
underlying `reactor.stop` raises `RuntimeError`, yet a second `_stop_reactor`
call swallows it and leaves the state unchanged (a silent no-op), so the
wrapper never raises. -/
theorem claim_C9_stop_reactor_never_raises (s : ReactorState) :
    CrawlerProcess._stop_reactor (CrawlerProcess._stop_reactor s)
        = CrawlerProcess._stop_reactor s
    ∧ (∃ e, reactor_stop (CrawlerProcess._stop_reactor s) = Except.error e) := by
  cases s <;> exact ⟨rfl, ⟨⟨"reactor is not running"⟩, rfl⟩⟩

/-- Claim C3: `_start_reactor` with `stop_after_crawl = true` builds the
DeferredList aggregate over the crawl deferreds tracked at that moment; if
the aggregate has already fired — in particular when there are no tracked
deferreds — the method returns at once without entering `reactor.run`;
otherwise it enters the loop having arranged that the completion of exactly
that snapshot of deferreds triggers `_stop_reactor`. -/
theorem claim_C3_stop_after_crawl (heap : Heap) (env : Env) (p : CrawlerProcess) :
    (DeferredList.called (fun d => env d != DStatus.pending)
          p.runner.crawl_deferreds = true →
        CrawlerProcess._start_reactor heap env true p
          = (p, ReactorOutcome.immediateReturn))
    ∧ (p.runner.crawl_deferreds = [] →
        CrawlerProcess._start_reactor heap env true p
          = (p, ReactorOutcome.immediateReturn))
    ∧ (DeferredList.called (fun d => env d != DStatus.pending)
          p.runner.crawl_deferreds = false →
        CrawlerProcess._start_reactor heap env true p
          = (p, ReactorOutcome.ran
              { stopTrigger := some p.runner.crawl_deferreds
              , dnsResolverInstalled := (heap p.runner.settingsRef).dnscacheEnabled
              , shutdownTriggerInstalled := true })) := by
  refine ⟨fun h => ?_, fun h => ?_, fun h => ?_⟩
  · simp [CrawlerProcess._start_reactor, h]
  · simp [CrawlerProcess._start_reactor, h, DeferredList.called,
      DeferredList.finishedCount]
  · simp [CrawlerProcess._start_reactor, h]

/-- Witness for C3: a registry with no tracked deferreds returns immediately,
and a registry with one pending deferred enters the loop with that snapshot
as stop trigger. -/
theorem claim_C3_witness :
    CrawlerProcess._start_reactor sampleHeap envAllPending true sampleProcess0
        = (sampleProcess0, ReactorOutcome.immediateReturn)
    ∧ CrawlerProcess._start_reactor sampleHeap envAllPending true sampleProcess1
        = (sampleProcess1, ReactorOutcome.ran
            { stopTrigger := some [7]
            , dnsResolverInstalled := false
            , shutdownTriggerInstalled := true }) :=
  ⟨(claim_C3_stop_after_crawl sampleHeap envAllPending sampleProcess0).2.1 rfl,
    (claim_C3_stop_after_crawl sampleHeap envAllPending sampleProcess1).2.2 rfl⟩

/-- Claim C4: calling `Crawler.crawl` while `crawling` is already true hits
the fatal `assert not self.crawling`: the outcome is the assertion failure
(propagated to the awaiter, never silently ignored) and the crawler state is
returned exactly as it was — no spider or engine is constructed and no engine
start takes place. -/
theorem claim_C4_double_start_fatal (env : CrawlEnv) (c : Crawler)
    (h : c.crawling = true) :
    Crawler.crawl env c = CrawlResult.assertionError c := by
  simp [Crawler.crawl, h]

/-- Witness for C4 at a concrete running crawler. -/
theorem claim_C4_witness :
    sampleCrawlerRunning.crawling = true
    ∧ Crawler.crawl sampleCrawlEnv sampleCrawlerRunning
        = CrawlResult.assertionError sampleCrawlerRunning :=
  ⟨rfl, claim_C4_double_start_fatal sampleCrawlEnv sampleCrawlerRunning rfl⟩

/-- Claim C5: `Crawler.stop` on a non-crawling crawler returns the crawler
unchanged together with an already-fired handle (no field changed, the engine
never invoked); on a crawling crawler it clears the `crawling` flag and
returns a handle that fires when the engine-stop event of its engine
fires. -/
theorem claim_C5_stop_idempotent_noop (c : Crawler) :
    (c.crawling = false → Crawler.stop c = (c, StopHandle.immediate))
    ∧ (∀ e, c.crawling = true → c.engine = some e →
        Crawler.stop c
          = ({ c with crawling := false }, StopHandle.awaitEngine e)) := by
  refine ⟨fun h => ?_, fun e h he => ?_⟩
  · simp [Crawler.stop, h]
  · simp [Crawler.stop, h, he]

/-- Witness for C5: the idle sample crawler stops as a no-op; the running
sample crawler transitions to not-crawling and awaits engine event 2. -/
theorem claim_C5_witness :
    Crawler.stop sampleCrawlerIdle = (sampleCrawlerIdle, StopHandle.immediate)
    ∧ Crawler.stop sampleCrawlerRunning
        = ({ sampleCrawlerRunning with crawling := false },
            StopHandle.awaitEngine 2) :=
  ⟨(claim_C5_stop_idempotent_noop sampleCrawlerIdle).1 rfl,
    (claim_C5_stop_idempotent_noop sampleCrawlerRunning).2 2 rfl rfl⟩

/-- Claim C6: whenever any step of the start sequence fails — spider
construction, engine construction, initial-request retrieval, opening the
spider, or starting the engine — `Crawler.crawl` ends in the `failed` outcome
carrying exactly that step (the error propagates to the awaiter of the
handle, with no retry constructor in the model) and a final state whose
`crawling` flag has been rolled back to false. -/
theorem claim_C6_setup_failure_rollback (env : CrawlEnv) (c : Crawler)
    (s : CrawlStep) (hc : c.crawling = false) (hf : env.failAt = some s) :
    ∃ c1, Crawler.crawl env c = CrawlResult.failed c1 s
      ∧ c1.crawling = false := by
  cases s with
  | createSpider =>
      refine ⟨{ c with crawling := false }, ?_, rfl⟩
      simp [Crawler.crawl, hc, hf]
  | createEngine =>
      refine ⟨{ c with spider := some env.spiderId, crawling := false }, ?_, rfl⟩
      simp [Crawler.crawl, hc, hf]
  | startRequests =>
      refine ⟨{ c with spider := some env.spiderId, engine := some env.engineId, crawling := false }, ?_, rfl⟩
      simp [Crawler.crawl, hc, hf]
  | openSpider =>
      refine ⟨{ c with spider := some env.spiderId, engine := some env.engineId, crawling := false }, ?_, rfl⟩
      simp [Crawler.crawl, hc, hf]
  | engineStart =>
      refine ⟨{ c with spider := some env.spiderId, engine := some env.engineId, crawling := false }, ?_, rfl⟩
      simp [Crawler.crawl, hc, hf]

/-- Witness for C6: the idle sample crawler under the oracle that fails at
the open-spider step ends not-crawling with the open-spider error. -/
theorem claim_C6_witness :
    ∃ c1, Crawler.crawl sampleFailEnv sampleCrawlerIdle
        = CrawlResult.failed c1 CrawlStep.openSpider
      ∧ c1.crawling = false :=
  claim_C6_setup_failure_rollback sampleFailEnv sampleCrawlerIdle
    CrawlStep.openSpider rfl rfl

/-- Claim C7: the single-installed invariant.  `install` while the global
slot is occupied is a fatal assertion; `uninstall` while it is empty is a
fatal assertion; consequently a first `CrawlerRunner.crawl` starting from an
empty slot succeeds and occupies the slot, and a second `crawl` issued while
the first task is still installed propagates the install assertion error. -/
theorem claim_C7_single_installed_slot (c : Crawler) (x : Nat) (heap : Heap)
    (env1 env2 : CrawlEnv) (r : CrawlerRunner) (s1 s2 : Nat) :
    (∃ e, Crawler.install c (some x) = Except.error e)
    ∧ (∃ e, Crawler.uninstall none = Except.error e)
    ∧ (∃ d, (CrawlerRunner.crawl heap env1 none r s1).2.2 = Except.ok d)
    ∧ (∃ y, (CrawlerRunner.crawl heap env1 none r s1).2.1 = some y)
    ∧ (∃ e, (CrawlerRunner.crawl heap env2
          (CrawlerRunner.crawl heap env1 none r s1).2.1
          (CrawlerRunner.crawl heap env1 none r s1).1 s2).2.2
        = Except.error e) := by
  refine ⟨⟨⟨"crawler already installed"⟩, rfl⟩,
    ⟨⟨"crawler not installed"⟩, rfl⟩, ⟨r.nextId + 1, ?_⟩, ⟨r.nextId, ?_⟩,
    ⟨⟨"crawler already installed"⟩, ?_⟩⟩
  · simp [CrawlerRunner.crawl, Crawler.install]
  · simp [CrawlerRunner.crawl, Crawler.install, CrawlerRunner._create_crawler]
  · simp [CrawlerRunner.crawl, Crawler.install]

/-- Counterexample to claim C8 as stated: the `CrawlerRunner` does not own an
immutable configuration snapshot copied at construction — `__init__` stores
the passed settings object itself.  Concretely: a runner built over
`sampleHeap` references the settings object at 0, which is not frozen, and
after that object is mutated (`mutHeap`) the runner reads content 2 where at
construction time it read 1 — later mutation does reach the registry. -/
theorem claim_C8_counterexample :
    (sampleHeap (CrawlerRunner.init sampleHeap 0).settingsRef).frozen = false
    ∧ (sampleHeap (CrawlerRunner.init sampleHeap 0).settingsRef).vals = 1
    ∧ (mutHeap (CrawlerRunner.init sampleHeap 0).settingsRef).vals = 2 := by
  refine ⟨rfl, rfl, ?_⟩
  simp [mutHeap, sampleHeap, writeHeap, CrawlerRunner.init, sampleSettings]

/-- Claim C8 as amended: the runner stores the live settings reference (only
the spider manager receives a frozen copy at construction), but every crawler
it creates receives its own frozen copy of the settings taken at creation
time: the copy is frozen, rejects every further mutation, has the content the
referenced object had at creation, and a crawler created after a mutation of
the referenced object sees the new content while the copy held by an
already-created crawler is a value the mutation cannot reach. -/
theorem claim_C8_amended_frozen_copy_per_task (heap : Heap) (r : CrawlerRunner)
    (spidercls : Nat) (i : Nat) (v : Settings) :
    (CrawlerRunner.init heap i).settingsRef = i
    ∧ (CrawlerRunner.init heap i).spidersSettings = (heap i).frozencopy
    ∧ (CrawlerRunner._create_crawler heap r spidercls).settings
        = (heap r.settingsRef).frozencopy
    ∧ (CrawlerRunner._create_crawler heap r spidercls).settings.frozen = true
    ∧ (∀ w, (CrawlerRunner._create_crawler heap r spidercls).settings.setval w
        = Except.error ⟨"settings object is immutable"⟩)
    ∧ (CrawlerRunner._create_crawler heap r spidercls).settings.vals
        = (heap r.settingsRef).vals
    ∧ (CrawlerRunner._create_crawler (writeHeap heap r.settingsRef v) r
          spidercls).settings.vals = v.vals := by
  refine ⟨rfl, rfl, rfl, rfl, fun w => ?_, rfl, ?_⟩
  · simp [Settings.setval, CrawlerRunner._create_crawler, Settings.frozencopy]
  · simp [CrawlerRunner._create_crawler, writeHeap, Settings.frozencopy]

/-- Claim C10: the `crawlers` and `crawl_deferreds` sets grow monotonically.
`CrawlerRunner.crawl` only appends to both (also on the install-assertion
path, where the crawler stays in the set and no deferred is added);
`CrawlerRunner.stop` keeps exactly the same tracked crawler identities and
leaves the deferred set untouched; `_start_reactor` returns the process state
unchanged; and both signal handlers leave the registry untouched. -/
theorem claim_C10_sets_grow_monotonically (heap : Heap) (env : CrawlEnv)
    (envD : Env) (g : Installed) (r : CrawlerRunner) (spidercls signum : Nat)
    (p : CrawlerProcess) (sac : Bool) :
    (∃ cs ds, (CrawlerRunner.crawl heap env g r spidercls).1.crawlers
          = r.crawlers ++ cs
        ∧ (CrawlerRunner.crawl heap env g r spidercls).1.crawl_deferreds
          = r.crawl_deferreds ++ ds)
    ∧ (CrawlerRunner.stop r).1.crawlers.map Crawler.id
        = r.crawlers.map Crawler.id
    ∧ (CrawlerRunner.stop r).1.crawl_deferreds = r.crawl_deferreds
    ∧ (CrawlerProcess._start_reactor heap envD sac p).1 = p
    ∧ (CrawlerProcess._signal_shutdown signum p).runner = p.runner
    ∧ (CrawlerProcess._signal_kill signum p).runner = p.runner := by
  refine ⟨?_, ?_, rfl, ?_, rfl, rfl⟩
  · cases g with
    | none =>
        refine ⟨[(Crawler.crawl env
          (CrawlerRunner._create_crawler heap r spidercls)).crawler],
          [r.nextId + 1], ?_, ?_⟩
        · simp [CrawlerRunner.crawl, Crawler.install]
        · simp [CrawlerRunner.crawl, Crawler.install]
    | some x =>
        refine ⟨[CrawlerRunner._create_crawler heap r spidercls], [], ?_, ?_⟩
        · simp [CrawlerRunner.crawl, Crawler.install]
        · simp [CrawlerRunner.crawl, Crawler.install]
  · simp [CrawlerRunner.stop, List.map_map, Function.comp_def, Crawler.stop_id]
  · unfold CrawlerProcess._start_reactor
    by_cases hs : sac
    · simp only [hs, if_true]
      by_cases hc : DeferredList.called (fun d => envD d != DStatus.pending)
          p.runner.crawl_deferreds
      · simp [hc]
      · simp [hc]
    · simp [hs]

end Scrapy
